import Mathlib

/-!
# kut: cutting a self-contained kubeconfig out of a multi-context one

A shallow embedding of `main.go`.  The program loads a kubeconfig, checks that
the target context is one of its contexts (`containsCtx`), replaces the three
mappings by single-entry mappings (`selectContext`), asks the container runtime
for the control-plane container and writes its address into the cluster's
server URL (`useDockerConainerIPAndDefaultAPIServerPort`), and prints the
serialised document (`rootCmdRunE`).

Conventions of the embedding:

* a Go `map[string]*T` is an association list from keys to `Option T`; `none`
  is the nil pointer.  A loaded document allocates every entry separately, so
  entries are modelled by value;
* a Go `string` is a Lean `String`; the literals the program matches on
  (`kind-`, `~`) are ASCII, so characters and bytes agree on them;
* a Go `error` is a `GoError`; the `nil` error is `none`;
* a Go run-time panic (index out of range, nil pointer dereference) is the
  `Outcome.panic` result, distinct from a returned error;
* the ambient state the program reads (flags, environment, file loader,
  container runtime, serialiser) is collected in `Env`.
-/

namespace Kut

/-! ## Go values -/

/-- A Go error value: `new msg` is `errors.New(msg)` (or an error made by a
library), `wrap msg inner` is `fmt.Errorf(msg ++ "%w", inner)`. -/
inductive GoError where
  | new (msg : String)
  | wrap (msg : String) (inner : GoError)
  deriving DecidableEq, Repr

/-- The two run-time panics the program can raise. -/
inductive Panic where
  | indexOutOfRange
  | nilDereference
  deriving DecidableEq, Repr

/-- Result of running a Go function that has no checked failure of its own:
it returns a value, or the goroutine panics. -/
inductive Outcome (α : Type) where
  | ret (a : α)
  | panic (p : Panic)
  deriving DecidableEq, Repr

/-- A Go map from strings to pointers; `none` values are nil pointers. -/
abbrev GoMap (α : Type) := List (String × Option α)

namespace GoMap

variable {α : Type}

/-- The two-valued lookup `v, ok := m[k]`: `none` when the key is absent. -/
def find : GoMap α → String → Option (Option α)
  | [], _ => none
  | (k0, v) :: rest, k => if k0 = k then some v else find rest k

/-- The `ok` of `_, ok := m[k]`. -/
def has (m : GoMap α) (k : String) : Bool := (find m k).isSome

/-- The one-valued lookup `m[k]`: the nil pointer when the key is absent. -/
def index (m : GoMap α) (k : String) : Option α := (find m k).getD none

/-- The keys of the map. -/
def keys (m : GoMap α) : List String := m.map Prod.fst

/-- The map literal with one entry. -/
def single (k : String) (v : Option α) : GoMap α := [(k, v)]

/-- Effect on the map of a write through the pointer stored under `k`: the
object under `k` becomes `v`, nothing else moves. -/
def store : GoMap α → String → α → GoMap α
  | [], _, _ => []
  | (k0, v0) :: rest, k, v =>
    if k0 = k then (k0, some v) :: rest else (k0, v0) :: store rest k v

end GoMap

/-! ## strings -/

/-- Go `strings.TrimPrefix` on character lists. -/
def trimPrefixChars (s pre : List Char) : List Char :=
  if pre.isPrefixOf s then s.drop pre.length else s

/-- Go `strings.TrimPrefix(s, pre)`: `s` without the leading `pre` when `s`
starts with it, `s` itself otherwise. -/
def TrimPrefix (s pre : String) : String := ⟨trimPrefixChars s.data pre.data⟩

/-- Go `strings.Contains(s, "~")`. -/
def containsTilde (s : String) : Bool := s.data.contains '~'

/-- Go `strings.ReplaceAll(s, "~", home)`. -/
def replaceTilde (s home : String) : String :=
  ⟨s.data.flatMap (fun ch => if ch = '~' then home.data else [ch])⟩

/-! ## The kubeconfig document (`k8s.io/client-go/tools/clientcmd/api`) -/

/-- Modelled from the spec: the declaration of `api.Cluster` is not part of the
repository.  A cluster holds a server endpoint URL and trust material, the
latter carried through unmodified. -/
structure Cluster where
  Server : String
  TLSServerName : String
  InsecureSkipTLSVerify : Bool
  CertificateAuthority : String
  CertificateAuthorityData : List Nat
  deriving DecidableEq, Repr

/-- Modelled from the spec: the declaration of `api.AuthInfo` is not part of
the repository.  An auth-info holds credential material. -/
structure AuthInfo where
  ClientCertificateData : List Nat
  ClientKeyData : List Nat
  Token : String
  deriving DecidableEq, Repr

/-- Modelled from the spec: the declaration of `api.Context` is not part of the
repository.  A context names one cluster and one auth-info. -/
structure Context where
  Cluster : String
  AuthInfo : String
  Namespace : String
  deriving DecidableEq, Repr

/-- Modelled from the spec: the declaration of `api.Config` is not part of the
repository.  Three mappings keyed by name and the current-context field. -/
structure Config where
  Clusters : GoMap Cluster
  AuthInfos : GoMap AuthInfo
  Contexts : GoMap Context
  CurrentContext : String
  deriving DecidableEq, Repr

/-! ## The container runtime (`github.com/docker/docker/api/types`) -/

/-- Modelled from the spec: `network.EndpointSettings`, the entry of a
workload's per-network address table. -/
structure EndpointSettings where
  IPAddress : String
  deriving DecidableEq, Repr

/-- Modelled from the spec: `types.SummaryNetworkSettings`, the per-network
address table of a workload. -/
structure SummaryNetworkSettings where
  Networks : GoMap EndpointSettings
  deriving DecidableEq, Repr

/-- Modelled from the spec: `types.Container`, a workload record; the network
settings are held through a pointer. -/
structure Container where
  Names : List String
  NetworkSettings : Option SummaryNetworkSettings
  deriving DecidableEq, Repr

/-! ## Ambient state -/

/-- Everything the program reads from outside. -/
structure Env where
  /-- Value of `viper.GetString("kubeconfig")`. -/
  kubeconfig : String
  /-- Value of `viper.GetString("context")`. -/
  context : String
  /-- Value of `os.Getenv("KUBECONFIG")`. -/
  KUBECONFIG : String
  /-- Result of `os.UserHomeDir()`. -/
  UserHomeDir : Except GoError String
  /-- Result of `clientcmd.LoadFromFile(path)`. -/
  LoadFromFile : String → Except GoError Config
  /-- Result of `docker.ContainerList` for a `name` filter: the slice and the
  error, both as returned. -/
  ContainerList : String → List Container × Option GoError
  /-- Result of `clientcmd.Write(config)`. -/
  Write : Config → Except GoError String

/-! ## The program -/

/-- The constant `defaultKubeconfig`. -/
def defaultKubeconfig : String := "~/.kube/config"

/-- Embedding of `kubeconfigPath`. -/
def kubeconfigPath (env : Env) : Except GoError String :=
  let path := env.kubeconfig
  let path :=
    if path = "" then
      let path := env.KUBECONFIG
      if path = "" then defaultKubeconfig else path
    else path
  if containsTilde path then
    match env.UserHomeDir with
    | .error err => .error (.wrap "failed to get user home dir: " err)
    | .ok home => .ok (replaceTilde path home)
  else .ok path

/-- Embedding of `containsCtx`; `configCtx` is `viper.GetString("context")`. -/
def containsCtx (configCtx : String) (config : Config) : Bool :=
  config.Contexts.has configCtx

/-- Embedding of `selectContext`; `configCtx` is `viper.GetString("context")`. -/
def selectContext (configCtx : String) (config : Config) : Config :=
  { Contexts := GoMap.single configCtx (config.Contexts.index configCtx)
    Clusters := GoMap.single configCtx (config.Clusters.index configCtx)
    AuthInfos := GoMap.single configCtx (config.AuthInfos.index configCtx)
    CurrentContext := configCtx }

/-- The `name` filter of the container query. -/
def nameFilter (configCtx : String) : String :=
  TrimPrefix configCtx "kind-" ++ "-control-plane"

/-- The value of `fmt.Sprintf("https://%s:6443", ip)`. -/
def serverURL (ip : String) : String := "https://" ++ ip ++ ":6443"

/-- Embedding of `useDockerConainerIPAndDefaultAPIServerPort`.  The error of
the query is assigned to the blank identifier.  The right-hand side of the
assignment is evaluated before the store through the cluster pointer. -/
def useDockerConainerIPAndDefaultAPIServerPort
    (ContainerList : String → List Container × Option GoError)
    (configCtx : String) (config : Config) : Outcome Config :=
  let containers := (ContainerList (nameFilter configCtx)).1
  match containers with
  | [] => .panic .indexOutOfRange
  | first :: _ =>
    match first.NetworkSettings with
    | none => .panic .nilDereference
    | some settings =>
      match settings.Networks.index "kind" with
      | none => .panic .nilDereference
      | some endpoint =>
        match config.Clusters.index configCtx with
        | none => .panic .nilDereference
        | some cluster =>
          .ret { config with
            Clusters := config.Clusters.store configCtx
              { cluster with Server := serverURL endpoint.IPAddress } }

/-- What a run of `rootCmdRunE` leaves behind when it returns. -/
structure RunResult where
  /-- The returned error, `none` for `nil`. -/
  err : Option GoError
  /-- The text printed on standard output, `none` when nothing was printed. -/
  stdout : Option String
  /-- The in-memory document at return, `none` when none was loaded. -/
  config : Option Config
  deriving DecidableEq, Repr

/-- The value of `errors.New("no such context in kubeconfig")`. -/
def errNoSuchContext : GoError := .new "no such context in kubeconfig"

/-- Embedding of `rootCmdRunE`. -/
def rootCmdRunE (env : Env) : Outcome RunResult :=
  match kubeconfigPath env with
  | .error err =>
    .ret ⟨some (.wrap "failed to get kubeconfig path: " err), none, none⟩
  | .ok path =>
    match env.LoadFromFile path with
    | .error err =>
      .ret ⟨some (.wrap "failed to load the kubeconfig: " err), none, none⟩
    | .ok config =>
      if !containsCtx env.context config then
        .ret ⟨some errNoSuchContext, none, some config⟩
      else
        let config := selectContext env.context config
        match useDockerConainerIPAndDefaultAPIServerPort env.ContainerList env.context config with
        | .panic p => .panic p
        | .ret config =>
          match env.Write config with
          | .error err =>
            .ret ⟨some (.wrap "failed to serialize the kubeconfig to yaml: " err), none, some config⟩
          | .ok bytes => .ret ⟨none, some bytes, some config⟩

/-! ## Sample data -/

/-- A cluster entry with some trust material and the given server. -/
def sampleCluster (server : String) : Cluster :=
  ⟨server, "", false, "", [1, 2, 3]⟩

/-- A credential entry with the given token. -/
def sampleAuth (token : String) : AuthInfo := ⟨[4, 5], [6], token⟩

/-- A document with the two contexts `kind-kind2` and `kind-kind3`. -/
def sampleConfig : Config where
  Clusters := [("kind-kind2", some (sampleCluster "https://127.0.0.1:41001")),
               ("kind-kind3", some (sampleCluster "http://localhost:8080"))]
  AuthInfos := [("kind-kind2", some (sampleAuth "t2")), ("kind-kind3", some (sampleAuth "t3"))]
  Contexts := [("kind-kind2", some ⟨"kind-kind2", "kind-kind2", ""⟩),
               ("kind-kind3", some ⟨"kind-kind3", "kind-kind3", ""⟩)]
  CurrentContext := "kind-kind3"

/-- A workload named `kind2-control-plane` with address 172.18.0.2 on network `kind`. -/
def sampleContainer : Container :=
  ⟨["/kind2-control-plane"], some ⟨[("kind", some ⟨"172.18.0.2"⟩)]⟩⟩

/-- A runtime that knows the one control-plane workload. -/
def sampleContainerList (name : String) : List Container × Option GoError :=
  if name = "kind2-control-plane" then ([sampleContainer], none) else ([], none)

/-- A stand-in serialiser: the current context and the server of its cluster. -/
def sampleWrite (c : Config) : Except GoError String :=
  .ok (c.CurrentContext ++ " " ++ ((c.Clusters.index c.CurrentContext).map Cluster.Server).getD "")

/-- Target `kind-kind2` in the sample document, with the sample runtime. -/
def sampleEnv : Env where
  kubeconfig := "/tmp/config"
  context := "kind-kind2"
  KUBECONFIG := ""
  UserHomeDir := .ok "/root"
  LoadFromFile := fun _ => .ok sampleConfig
  ContainerList := sampleContainerList
  Write := sampleWrite

/-- The sample environment with a target that is not in the document. -/
def missingEnv : Env := { sampleEnv with context := "kind-kind9" }

/-- The sample environment with an unreachable runtime: nil slice and an error. -/
def daemonDownEnv : Env :=
  { sampleEnv with
    ContainerList := fun _ => ([], some (.new "Cannot connect to the Docker daemon")) }

/-- The sample environment with a runtime that finds no workload. -/
def noWorkloadEnv : Env := { sampleEnv with ContainerList := fun _ => ([], none) }

/-- The sample document after the rewrite for `kind-kind2`, without pruning. -/
def sampleRewritten : Config :=
  { sampleConfig with
    Clusters := [("kind-kind2", some (sampleCluster "https://172.18.0.2:6443")),
                 ("kind-kind3", some (sampleCluster "http://localhost:8080"))] }

/-- A document whose context `dev` refers to cluster `k` and user `u`. -/
def crossConfig : Config where
  Clusters := [("k", some (sampleCluster "https://10.0.0.1:443"))]
  AuthInfos := [("u", some (sampleAuth "tu"))]
  Contexts := [("dev", some ⟨"k", "u", ""⟩)]
  CurrentContext := "dev"

/-- A document whose context `kind-kind2` has no cluster entry. -/
def danglingConfig : Config where
  Clusters := [("kind-kind3", some (sampleCluster "https://127.0.0.1:41002"))]
  AuthInfos := [("kind-kind2", some (sampleAuth "t2"))]
  Contexts := [("kind-kind2", some ⟨"kind-kind2", "kind-kind2", ""⟩)]
  CurrentContext := "kind-kind2"

/-- The sample environment loading the document with the missing cluster. -/
def danglingEnv : Env := { sampleEnv with LoadFromFile := fun _ => .ok danglingConfig }

/-! ## Lemmas on maps and strings -/

namespace GoMap

variable {α : Type}

theorem has_iff_mem_keys (m : GoMap α) (k : String) : has m k = true ↔ k ∈ keys m := by
  induction m with
  | nil => simp [has, find, keys]
  | cons e rest ih =>
    obtain ⟨k0, v⟩ := e
    by_cases hk : k0 = k
    · simp [has, find, keys, hk]
    · have hk2 : ¬ k = k0 := fun h => hk h.symm
      simpa [has, find, keys, hk, hk2] using ih

theorem has_false_iff (m : GoMap α) (k : String) : has m k = false ↔ k ∉ keys m := by
  rw [← has_iff_mem_keys]; simp

theorem index_of_not_has (m : GoMap α) (k : String) (h : has m k = false) :
    index m k = none := by
  unfold has at h
  unfold index
  cases hf : find m k with
  | none => rfl
  | some v => simp [hf] at h

theorem keys_store (m : GoMap α) (k : String) (v : α) : keys (store m k v) = keys m := by
  induction m with
  | nil => rfl
  | cons e rest ih =>
    obtain ⟨k0, v0⟩ := e
    by_cases hk : k0 = k
    · simp [store, keys, hk]
    · simpa [store, keys, hk] using ih

theorem find_store_ne (m : GoMap α) (k j : String) (v : α) (hj : j ≠ k) :
    find (store m k v) j = find m j := by
  induction m with
  | nil => rfl
  | cons e rest ih =>
    obtain ⟨k0, v0⟩ := e
    by_cases hk : k0 = k
    · have : ¬ k = j := fun h => hj h.symm
      simp [store, find, hk, this]
    · by_cases hj0 : k0 = j
      · subst hj0
        simp [store, find, hk]
      · simp [store, find, hk, hj0, ih]

theorem index_store_self (m : GoMap α) (k : String) (old v : α)
    (h : index m k = some old) : index (store m k v) k = some v := by
  induction m with
  | nil => simp [index, find] at h
  | cons e rest ih =>
    obtain ⟨k0, v0⟩ := e
    by_cases hk : k0 = k
    · simp [store, index, find, hk]
    · simp only [index, find, hk, if_false] at h
      simpa [store, index, find, hk] using ih h

end GoMap

theorem trimPrefixChars_append (pre t : List Char) : trimPrefixChars (pre ++ t) pre = t := by
  have h : pre.isPrefixOf (pre ++ t) = true := by
    rw [List.isPrefixOf_iff_prefix]; exact List.prefix_append pre t
  simp [trimPrefixChars, h]

theorem trimPrefixChars_unmatched (s pre : List Char) (h : ¬ pre <+: s) :
    trimPrefixChars s pre = s := by
  have h2 : ¬ pre.isPrefixOf s = true := by
    rw [List.isPrefixOf_iff_prefix]; exact h
  simp [trimPrefixChars, h2]

/-! ## Context selection -/

/-- C1: when the Contexts mapping of a document has the key `c`, after
`selectContext` with target `c` each of the mappings Contexts, Clusters and
AuthInfos has exactly one key, that key is `c`, and CurrentContext is `c`. -/
theorem selectContext_single_key (c : String) (config : Config)
    (_h : containsCtx c config = true) :
    (selectContext c config).Contexts.keys = [c] ∧
    (selectContext c config).Clusters.keys = [c] ∧
    (selectContext c config).AuthInfos.keys = [c] ∧
    (selectContext c config).CurrentContext = c :=
  ⟨rfl, rfl, rfl, rfl⟩

/-- Instance of C1 at the sample document with target `kind-kind2`. -/
theorem selectContext_single_key_witness :
    containsCtx "kind-kind2" sampleConfig = true ∧
    (selectContext "kind-kind2" sampleConfig).Contexts.keys = ["kind-kind2"] ∧
    (selectContext "kind-kind2" sampleConfig).Clusters.keys = ["kind-kind2"] ∧
    (selectContext "kind-kind2" sampleConfig).AuthInfos.keys = ["kind-kind2"] ∧
    (selectContext "kind-kind2" sampleConfig).CurrentContext = "kind-kind2" :=
  ⟨by decide, selectContext_single_key "kind-kind2" sampleConfig (by decide)⟩

/-- C6: when the Contexts mapping has the key `c`, `selectContext` keeps under
key `c` in each of the three mappings the value the original mapping gave for
`c`; when the original Clusters or AuthInfos mapping has no key `c`, the pruned
mapping is the single key `c` with the nil value.  `selectContext` is a total
function, it has no failing result. -/
theorem selectContext_keeps_values (c : String) (config : Config)
    (_h : containsCtx c config = true) :
    (selectContext c config).Contexts.index c = config.Contexts.index c ∧
    (selectContext c config).Clusters.index c = config.Clusters.index c ∧
    (selectContext c config).AuthInfos.index c = config.AuthInfos.index c ∧
    (config.Clusters.has c = false → (selectContext c config).Clusters = [(c, none)]) ∧
    (config.AuthInfos.has c = false → (selectContext c config).AuthInfos = [(c, none)]) := by
  refine ⟨?_, ?_, ?_, ?_, ?_⟩
  · simp [selectContext, GoMap.single, GoMap.index, GoMap.find]
  · simp [selectContext, GoMap.single, GoMap.index, GoMap.find]
  · simp [selectContext, GoMap.single, GoMap.index, GoMap.find]
  · intro hc
    simp [selectContext, GoMap.single, GoMap.index_of_not_has _ _ hc]
  · intro hc
    simp [selectContext, GoMap.single, GoMap.index_of_not_has _ _ hc]

/-- Instance of C6 at the document whose context `kind-kind2` has no cluster. -/
theorem selectContext_keeps_values_witness :
    containsCtx "kind-kind2" danglingConfig = true ∧
    danglingConfig.Clusters.has "kind-kind2" = false ∧
    (selectContext "kind-kind2" danglingConfig).Clusters = [("kind-kind2", none)] ∧
    (selectContext "kind-kind2" danglingConfig).AuthInfos.index "kind-kind2" =
      some (sampleAuth "t2") :=
  have h := selectContext_keeps_values "kind-kind2" danglingConfig (by decide)
  ⟨by decide, by decide, h.2.2.2.1 (by decide), h.2.2.1.trans (by decide)⟩

/-- C7, as stated, fails: in `crossConfig` the context `dev` refers to cluster
`k` and user `u`, both present, and the document pruned for `dev` holds neither
of the two entries under any key. -/
theorem selectContext_drops_referenced_entries :
    ¬ ∀ (c : String) (config : Config) (ctx : Context) (cl : Cluster) (au : AuthInfo),
      config.Contexts.index c = some ctx →
      config.Clusters.index ctx.Cluster = some cl →
      config.AuthInfos.index ctx.AuthInfo = some au →
      (∃ key, (selectContext c config).Clusters.index key = some cl) ∧
      (∃ key, (selectContext c config).AuthInfos.index key = some au) := by
  intro h
  obtain ⟨⟨key, hk⟩, _⟩ :=
    h "dev" crossConfig ⟨"k", "u", ""⟩ (sampleCluster "https://10.0.0.1:443")
      (sampleAuth "tu") (by decide) (by decide) (by decide)
  have hprune : (selectContext "dev" crossConfig).Clusters = [("dev", none)] := by decide
  rw [hprune] at hk
  by_cases hd : "dev" = key <;> simp [GoMap.index, GoMap.find, hd] at hk

/-- C7, amended: when context `c` refers to cluster name `k` and user name
`u`, both present, the pruned document keeps the context entry under `c`, and
under key `c` the Cluster and AuthInfo values the original mappings gave for
the key `c`; the Cluster entry stored under `k` is retained when `k = c`, the
AuthInfo entry stored under `u` is retained when `u = c`. -/
theorem selectContext_retains_same_named (c : String) (config : Config)
    (ctx : Context) (cl : Cluster) (au : AuthInfo)
    (hctx : config.Contexts.index c = some ctx)
    (hcl : config.Clusters.index ctx.Cluster = some cl)
    (hau : config.AuthInfos.index ctx.AuthInfo = some au) :
    (selectContext c config).Contexts.index c = some ctx ∧
    (selectContext c config).Clusters.index c = config.Clusters.index c ∧
    (selectContext c config).AuthInfos.index c = config.AuthInfos.index c ∧
    (ctx.Cluster = c → (selectContext c config).Clusters.index ctx.Cluster = some cl) ∧
    (ctx.AuthInfo = c → (selectContext c config).AuthInfos.index ctx.AuthInfo = some au) := by
  refine ⟨?_, ?_, ?_, ?_, ?_⟩
  · simp [selectContext, GoMap.single, GoMap.index, GoMap.find, ← hctx]
  · simp [selectContext, GoMap.single, GoMap.index, GoMap.find]
  · simp [selectContext, GoMap.single, GoMap.index, GoMap.find]
  · intro hk
    rw [hk] at hcl ⊢
    simp [selectContext, GoMap.single, GoMap.index, GoMap.find, ← hcl]
  · intro hu
    rw [hu] at hau ⊢
    simp [selectContext, GoMap.single, GoMap.index, GoMap.find, ← hau]

/-- Instance of the amended C7 at the sample document, where all names agree. -/
theorem selectContext_retains_same_named_witness :
    (selectContext "kind-kind2" sampleConfig).Clusters.index "kind-kind2" =
      some (sampleCluster "https://127.0.0.1:41001") ∧
    (selectContext "kind-kind2" sampleConfig).AuthInfos.index "kind-kind2" =
      some (sampleAuth "t2") :=
  have h := selectContext_retains_same_named "kind-kind2" sampleConfig
    ⟨"kind-kind2", "kind-kind2", ""⟩ (sampleCluster "https://127.0.0.1:41001")
    (sampleAuth "t2") (by decide) (by decide) (by decide)
  ⟨h.2.2.2.1 rfl, h.2.2.2.2 rfl⟩

/-! ## Name derivation -/

/-- C3: for every context name `s` the name filter handed to the runtime query
is `s` with one leading `kind-` removed when `s` starts with `kind-`, and `s`
itself otherwise, followed by `-control-plane`; the prefix is stripped once;
the rewrite reads the runtime's answer for that filter and no other. -/
theorem nameFilter_derivation :
    (∀ s : String,
      (∃ t : String, s = "kind-" ++ t ∧ nameFilter s = t ++ "-control-plane") ∨
      ((∀ t : String, s ≠ "kind-" ++ t) ∧ nameFilter s = s ++ "-control-plane")) ∧
    nameFilter "kind-kind2" = "kind2-control-plane" ∧
    nameFilter "other" = "other-control-plane" ∧
    nameFilter "kind-kind-x" = "kind-x-control-plane" ∧
    (∀ (q : String → List Container × Option GoError) (c : String) (config : Config),
      useDockerConainerIPAndDefaultAPIServerPort q c config =
        useDockerConainerIPAndDefaultAPIServerPort (fun _ => q (nameFilter c)) c config) := by
  refine ⟨?_, by decide, by decide, by decide, fun _ _ _ => rfl⟩
  intro s
  by_cases h : "kind-".data <+: s.data
  · obtain ⟨t, ht⟩ := h
    refine Or.inl ⟨⟨t⟩, ?_, ?_⟩
    · apply String.ext
      simp [← ht]
    · unfold nameFilter TrimPrefix
      rw [← ht, trimPrefixChars_append]
  · refine Or.inr ⟨fun t ht => h ⟨t.data, ?_⟩, ?_⟩
    · rw [ht]; simp
    · unfold nameFilter TrimPrefix
      rw [trimPrefixChars_unmatched _ _ h]

/-! ## Endpoint rewrite -/

/-- C4: for every document (in particular every pruned one) with a non-nil
Cluster entry under key `c`, and every runtime answer whose first workload has
a network `kind` with address `a`, the rewrite completes and the Cluster entry
under `c` is the old entry with Server `https://a:6443`, whatever the Server
field held before. -/
theorem rewrite_sets_server (q : String → List Container × Option GoError)
    (c : String) (config : Config) (cluster : Cluster)
    (first : Container) (rest : List Container) (err : Option GoError)
    (settings : SummaryNetworkSettings) (endpoint : EndpointSettings)
    (hc : config.Clusters.index c = some cluster)
    (hq : q (nameFilter c) = (first :: rest, err))
    (hs : first.NetworkSettings = some settings)
    (hn : settings.Networks.index "kind" = some endpoint) :
    ∃ config1, useDockerConainerIPAndDefaultAPIServerPort q c config = .ret config1 ∧
      config1.Clusters.index c =
        some { cluster with Server := "https://" ++ endpoint.IPAddress ++ ":6443" } := by
  have hrun : useDockerConainerIPAndDefaultAPIServerPort q c config =
      .ret { config with
        Clusters := config.Clusters.store c
          { cluster with Server := serverURL endpoint.IPAddress } } := by
    simp only [useDockerConainerIPAndDefaultAPIServerPort, hq, hs, hn, hc]
  exact ⟨_, hrun, GoMap.index_store_self _ _ _ _ hc⟩

/-- Instance of C4: contexts `kind-kind2` and `kind-kind3`, target `kind-kind2`,
workload `kind2-control-plane` at 172.18.0.2. -/
theorem rewrite_sets_server_witness :
    (∃ config1,
      useDockerConainerIPAndDefaultAPIServerPort sampleContainerList "kind-kind2"
        (selectContext "kind-kind2" sampleConfig) = .ret config1 ∧
      config1.Clusters.index "kind-kind2" =
        some { sampleCluster "https://127.0.0.1:41001" with
          Server := "https://" ++ "172.18.0.2" ++ ":6443" }) ∧
    "https://" ++ "172.18.0.2" ++ ":6443" = "https://172.18.0.2:6443" :=
  ⟨rewrite_sets_server sampleContainerList "kind-kind2"
      (selectContext "kind-kind2" sampleConfig) (sampleCluster "https://127.0.0.1:41001")
      sampleContainer [] none ⟨[("kind", some ⟨"172.18.0.2"⟩)]⟩ ⟨"172.18.0.2"⟩
      (by decide) (by decide) (by decide) (by decide),
    by decide⟩

/-- C5: when the rewrite completes, the AuthInfos mapping, the Contexts mapping
and CurrentContext are what they were, the keys of the Clusters mapping are
what they were, every Clusters entry under a key other than `c` is what it was,
and the entry under `c` differs from the old one in the Server field at most. -/
theorem rewrite_frame (q : String → List Container × Option GoError)
    (c : String) (config config1 : Config)
    (h : useDockerConainerIPAndDefaultAPIServerPort q c config = .ret config1) :
    config1.AuthInfos = config.AuthInfos ∧
    config1.Contexts = config.Contexts ∧
    config1.CurrentContext = config.CurrentContext ∧
    config1.Clusters.keys = config.Clusters.keys ∧
    (∀ k, k ≠ c → config1.Clusters.find k = config.Clusters.find k) ∧
    (∃ old new, config.Clusters.index c = some old ∧ config1.Clusters.index c = some new ∧
      new = { old with Server := new.Server }) := by
  unfold useDockerConainerIPAndDefaultAPIServerPort at h
  simp only at h
  split at h
  · cases h
  · split at h
    · cases h
    · split at h
      · cases h
      · split at h
        · cases h
        · rename_i cluster hcl
          cases h
          refine ⟨rfl, rfl, rfl, GoMap.keys_store _ _ _, ?_, ?_⟩
          · intro k hk
            exact GoMap.find_store_ne _ _ _ _ hk
          · exact ⟨cluster, _, hcl, GoMap.index_store_self _ _ _ _ hcl, rfl⟩

/-- Instance of C5 at the unpruned sample document: the entry of `kind-kind3` stays. -/
theorem rewrite_frame_witness :
    useDockerConainerIPAndDefaultAPIServerPort sampleContainerList "kind-kind2" sampleConfig
      = .ret sampleRewritten ∧
    sampleRewritten.AuthInfos = sampleConfig.AuthInfos ∧
    sampleRewritten.Contexts = sampleConfig.Contexts ∧
    sampleRewritten.CurrentContext = sampleConfig.CurrentContext ∧
    sampleRewritten.Clusters.keys = sampleConfig.Clusters.keys ∧
    sampleRewritten.Clusters.find "kind-kind3" = sampleConfig.Clusters.find "kind-kind3" :=
  have f := rewrite_frame sampleContainerList "kind-kind2" sampleConfig sampleRewritten
    (by decide)
  ⟨by decide, f.1, f.2.1, f.2.2.1, f.2.2.2.1, f.2.2.2.2.1 "kind-kind3" (by decide)⟩

/-! ## The run -/

/-- After a successful load the run is the not-found return or the selection,
the rewrite and the serialisation. -/
theorem rootCmdRunE_loaded (env : Env) (path : String) (config : Config)
    (hp : kubeconfigPath env = .ok path) (hl : env.LoadFromFile path = .ok config) :
    rootCmdRunE env =
      if !containsCtx env.context config then
        .ret ⟨some errNoSuchContext, none, some config⟩
      else
        match useDockerConainerIPAndDefaultAPIServerPort env.ContainerList env.context
            (selectContext env.context config) with
        | .panic p => .panic p
        | .ret config1 =>
          match env.Write config1 with
          | .error err =>
            .ret ⟨some (.wrap "failed to serialize the kubeconfig to yaml: " err), none,
              some config1⟩
          | .ok bytes => .ret ⟨none, some bytes, some config1⟩ := by
  simp only [rootCmdRunE, hp, hl]

/-- An empty answer of the runtime makes the rewrite panic at `containers[0]`. -/
theorem rewrite_empty_panics (q : String → List Container × Option GoError)
    (c : String) (config : Config) (h : (q (nameFilter c)).1 = []) :
    useDockerConainerIPAndDefaultAPIServerPort q c config = .panic .indexOutOfRange := by
  simp only [useDockerConainerIPAndDefaultAPIServerPort, h]

/-- A nil cluster pointer under the target makes the rewrite panic at the store,
once the right-hand side has been evaluated. -/
theorem rewrite_nil_cluster_panics (q : String → List Container × Option GoError)
    (c : String) (config : Config) (first : Container) (rest : List Container)
    (settings : SummaryNetworkSettings) (endpoint : EndpointSettings)
    (hq : (q (nameFilter c)).1 = first :: rest)
    (hs : first.NetworkSettings = some settings)
    (hn : settings.Networks.index "kind" = some endpoint)
    (hc : config.Clusters.index c = none) :
    useDockerConainerIPAndDefaultAPIServerPort q c config = .panic .nilDereference := by
  simp only [useDockerConainerIPAndDefaultAPIServerPort, hq, hs, hn, hc]

/-- C2: after a successful load, the run returns the not-found error exactly
when the target is not a key of the Contexts mapping of the loaded document;
a run that returns the not-found error leaves the document as loaded and
prints nothing. -/
theorem rootCmdRunE_not_found_iff (env : Env) (path : String) (config : Config)
    (hp : kubeconfigPath env = .ok path) (hl : env.LoadFromFile path = .ok config) :
    ((∃ r, rootCmdRunE env = .ret r ∧ r.err = some errNoSuchContext) ↔
      env.context ∉ config.Contexts.keys) ∧
    (∀ r, rootCmdRunE env = .ret r → r.err = some errNoSuchContext →
      r.config = some config ∧ r.stdout = none) := by
  have hrun := rootCmdRunE_loaded env path config hp hl
  cases hctx : containsCtx env.context config with
  | false =>
    have hkey : env.context ∉ config.Contexts.keys :=
      (GoMap.has_false_iff _ _).1 hctx
    simp only [hctx, Bool.not_false, if_true] at hrun
    refine ⟨⟨fun _ => hkey, fun _ => ⟨_, hrun, rfl⟩⟩, ?_⟩
    intro r hr _
    rw [hrun] at hr
    cases hr
    exact ⟨rfl, rfl⟩
  | true =>
    have hkey : env.context ∈ config.Contexts.keys :=
      (GoMap.has_iff_mem_keys _ _).1 hctx
    simp only [hctx, Bool.not_true, Bool.false_eq_true, if_false] at hrun
    have hno : ∀ r, rootCmdRunE env = .ret r → r.err ≠ some errNoSuchContext := by
      intro r hr
      rw [hrun] at hr
      split at hr
      · cases hr
      · split at hr
        · cases hr
          simp [errNoSuchContext]
        · cases hr
          simp
    refine ⟨⟨fun ⟨r, hr, he⟩ => absurd he (hno r hr), fun hn => absurd hkey hn⟩, ?_⟩
    intro r hr he
    exact absurd he (hno r hr)

/-- Instance of C2 with the target `kind-kind9`, which the sample document lacks. -/
theorem rootCmdRunE_not_found_iff_witness :
    kubeconfigPath missingEnv = .ok "/tmp/config" ∧
    missingEnv.LoadFromFile "/tmp/config" = .ok sampleConfig ∧
    missingEnv.context ∉ sampleConfig.Contexts.keys ∧
    (∃ r, rootCmdRunE missingEnv = .ret r ∧ r.err = some errNoSuchContext) ∧
    (∀ r, rootCmdRunE missingEnv = .ret r → r.err = some errNoSuchContext →
      r.config = some sampleConfig ∧ r.stdout = none) :=
  have h := rootCmdRunE_not_found_iff missingEnv "/tmp/config" sampleConfig rfl rfl
  ⟨rfl, rfl, by decide, h.1.2 (by decide), h.2⟩

/-- C8, at the failing input: the runtime query returns the nil slice and an
error; the run does not return that error, it panics at `containers[0]`.  For
every environment the run is the same as with the query error erased. -/
theorem rootCmdRunE_query_error_discarded :
    daemonDownEnv.ContainerList (nameFilter daemonDownEnv.context) =
      ([], some (.new "Cannot connect to the Docker daemon")) ∧
    rootCmdRunE daemonDownEnv = .panic .indexOutOfRange ∧
    (∀ env : Env, rootCmdRunE env =
      rootCmdRunE { env with ContainerList := fun name => ((env.ContainerList name).1, none) }) :=
  ⟨rfl, by decide, fun _ => rfl⟩

/-- C9, at the failing input: the target context is in the document, the
runtime query returns no workload and no error; the run returns no error, it
panics with index out of range at `containers[0]`. -/
theorem rootCmdRunE_no_workload_panics :
    containsCtx noWorkloadEnv.context sampleConfig = true ∧
    noWorkloadEnv.ContainerList (nameFilter noWorkloadEnv.context) = ([], none) ∧
    rootCmdRunE noWorkloadEnv = .panic .indexOutOfRange :=
  ⟨by decide, rfl, by decide⟩

/-- C10, at the failing input: the target context is in the document, the
Clusters mapping has no entry for it, the first workload has an address on
network `kind`; the run panics with a nil pointer dereference at the store
into the missing Cluster entry. -/
theorem rootCmdRunE_dangling_cluster_panics :
    containsCtx danglingEnv.context danglingConfig = true ∧
    danglingConfig.Clusters.has "kind-kind2" = false ∧
    (selectContext "kind-kind2" danglingConfig).Clusters = [("kind-kind2", none)] ∧
    rootCmdRunE danglingEnv = .panic .nilDereference :=
  ⟨by decide, by decide, by decide, by decide⟩

end Kut
